import Mathlib

/-!
Verification development for the `mk-proxy-generator` repository.

The repository implements a local forward proxy backed by a pool of Tor
instances.  The files embedded here are `backend/proxy_server.py`
(protocol classification, SOCKS5 dialing, HTTP/CONNECT handling, the
per-connection `handle` wrapper) and `backend/tor_handler.py`
(`TorInstance.get_ip` identity caching, `TorPoolManager` start/stop and
rotation).  Side effects (socket reads, process spawns, external HTTP
lookups) are passed in as explicit inputs, and everything the code can
observe or mutate is returned explicitly.
-/

namespace MkProxy

/-! ## Protocol classification — `HybridProxyHandler.detect_protocol`
(`backend/proxy_server.py`, lines 25-33) -/

/-- Embedding of `HybridProxyHandler.detect_protocol`.  The Python code
compares the first byte against `0x04`, `0x05` and the tuple
`(0x47, 0x48, 0x50, 0x43, 0x4F, 0x50)` (the byte `0x50` is listed twice
in the source); the duplicate is kept here. -/
def detect_protocol (first_byte : Nat) : String :=
  if first_byte = 0x04 then "SOCKS4"
  else if first_byte = 0x05 then "SOCKS5"
  else if first_byte = 0x47 ∨ first_byte = 0x48 ∨ first_byte = 0x50 ∨
          first_byte = 0x43 ∨ first_byte = 0x4F ∨ first_byte = 0x50 then "HTTP"
  else "UNKNOWN"

/-! ## SOCKS5 dialer — `HybridProxyHandler.connect_to_tor`
(`backend/proxy_server.py`, lines 61-92)

The dialer's observable effects are captured in `DialOutcome`.  Its
external inputs are the active pool port (`tor_port`, `0` when the pool
is empty, in which case Python's `if not tor_port: return None` fires
before any socket is opened), whether the TCP connect and the two sends
succeed (`connect_ok`; a failure raises inside the `try` and is caught
by the trailing `except Exception: return None`), and the byte strings
returned by the two `recv` calls (`resp1` for `s.recv(2)` after method
negotiation, `resp2` for `s.recv(10)` after the CONNECT request).

Python evaluates `if not resp or resp[1] != 0x00`: an empty reply takes
the first disjunct and closes the socket; a one-byte reply reaches
`resp[1]`, which raises `IndexError`, caught by the outer handler which
returns `None` *without* closing the socket. -/

/-- Observable outcome of one `connect_to_tor` call: whether the live
socket was returned to the caller, whether a socket was opened at all,
whether the opened socket was closed before returning, and whether an
exception escapes to the caller. -/
structure DialOutcome where
  returned_socket : Bool
  socket_opened : Bool
  socket_closed : Bool
  raises : Bool
deriving Repr, DecidableEq

/-- Embedding of `HybridProxyHandler.connect_to_tor`. -/
def connect_to_tor (tor_port : Nat) (connect_ok : Bool) (resp1 resp2 : List Nat) :
    DialOutcome :=
  if tor_port = 0 then ⟨false, false, false, false⟩
  else if connect_ok = false then ⟨false, true, false, false⟩
  else if resp1.length = 0 then ⟨false, true, true, false⟩
  else if resp1.length < 2 then ⟨false, true, false, false⟩
  else if resp1.getD 1 0 ≠ 0 then ⟨false, true, true, false⟩
  else if resp2.length = 0 then ⟨false, true, true, false⟩
  else if resp2.length < 2 then ⟨false, true, false, false⟩
  else if resp2.getD 1 0 ≠ 0 then ⟨false, true, true, false⟩
  else ⟨true, true, false, false⟩

/-! ## Tor pool model — `TorPoolManager` (`backend/tor_handler.py`)

`TorInstance` keeps the fields the pool-level operations read: the two
ports assigned in `TorPoolManager.start_pool`.  The per-instance
identity cache (`_ip_cache`, `_ip_cache_time`, `_cache_ttl`) is embedded
separately below as `IpCacheState`, since only `TorInstance.get_ip`
touches it.  A rotation call mutates the pool state, returns an
instance, and spawns one daemon thread; the spawned thread is returned
as a `BackgroundTask` value rather than executed, which is exactly what
"asynchronously, non-blocking to the caller" means for the synchronous
result. -/

/-- One Tor instance as the pool operations see it: the SOCKS and
control ports assigned at construction (`TorInstance.__init__`). -/
structure TorInstance where
  socks_port : Nat
  control_port : Nat
deriving Repr, DecidableEq, Inhabited

/-- The mutable pool state of `TorPoolManager`: the `instances` list and
`current_index` (both initialised to empty / `0` in `__init__`). -/
structure TorPool where
  instances : List TorInstance
  current_index : Nat
deriving Repr, DecidableEq

/-- The daemon-thread body that `switch_to_next_instance` spawns and
does not wait for: `renew_single_ip` on the sole instance when the pool
has size 1, `prewarm_old_instance` on the previously active index when
the pool has size ≥ 2, nothing when the pool is empty. -/
inductive BackgroundTask where
  | noTask : BackgroundTask
  | renewSingle : BackgroundTask
  | prewarm (old_index : Nat) : BackgroundTask
deriving Repr, DecidableEq

/-- Everything one `switch_to_next_instance` call produces: the new pool
state, the instance returned to the caller, and the background task
handed to a daemon thread. -/
structure RotateResult where
  pool : TorPool
  returned : Option TorInstance
  task : BackgroundTask
deriving Repr, DecidableEq

/-- Embedding of `TorPoolManager.switch_to_next_instance` (lines
356-401).  Empty pool: return `None`.  Size 1: return `instances[0]`
unchanged and spawn `renew_single_ip`.  Size ≥ 2: advance
`current_index = (current_index + 1) % len`, return the instance at the
new index, and spawn `prewarm_old_instance` for
`(current_index - 1) % len` (Python `%` on a possibly negative operand,
which `Int.emod` matches for a positive modulus). -/
def switch_to_next_instance (p : TorPool) : RotateResult :=
  if p.instances = [] then ⟨p, none, .noTask⟩
  else if p.instances.length = 1 then
    ⟨p, some (p.instances.getD 0 default), .renewSingle⟩
  else
    let n := p.instances.length
    let new_index := (p.current_index + 1) % n
    let old_index := (((new_index : Int) - 1) % (n : Int)).toNat
    ⟨⟨p.instances, new_index⟩, some (p.instances.getD new_index default),
      .prewarm old_index⟩

/-- The pool state after `k` successive rotation calls. -/
def rotate_iter (p : TorPool) : Nat → TorPool
  | 0 => p
  | k + 1 => (switch_to_next_instance (rotate_iter p k)).pool

/-- The instance returned by the `(k+1)`-st successive rotation call. -/
def rotation_return (p : TorPool) (k : Nat) : Option TorInstance :=
  (switch_to_next_instance (rotate_iter p k)).returned

/-- A concrete instance with the default base ports. -/
def inst_a : TorInstance := ⟨9050, 9051⟩

/-- A concrete instance with the next allocated port pair. -/
def inst_b : TorInstance := ⟨9052, 9053⟩

/-- A concrete two-instance pool at index 0. -/
def pool_two : TorPool := ⟨[inst_a, inst_b], 0⟩

/-- A concrete one-instance pool at index 0. -/
def pool_one : TorPool := ⟨[inst_a], 0⟩

/-! ## Pool startup and teardown — `TorPoolManager.start_pool` (lines
297-333) and `TorPoolManager.stop_pool` (lines 335-343)

`start_pool` builds `count` instances with ports
`base_socks_port + i*2` / `base_control_port + i*2`, starts them on a
bounded thread pool, appends to `self.instances` exactly those whose
`start()` future returned `True` (a future that raised is skipped by
the `except: pass`), waits up to 30 s for control-path readiness (no
state effect), and finally raises `RuntimeError` iff `self.instances`
is empty.  The per-instance `start()` outcomes are the external input
`results`. -/

/-- The `count` instances `start_pool` constructs: instance `i` gets
`socks_port = base_socks_port + i*2` and
`control_port = base_control_port + i*2`. -/
def launch_instances (count bs bc : Nat) : List TorInstance :=
  (List.range count).map (fun i => ⟨bs + i * 2, bc + i * 2⟩)

/-- The instances `start_pool` enrolls into the live pool: exactly the
launched instances whose `start()` returned success. -/
def enrolled_instances (count bs bc : Nat) (results : Nat → Bool) : List TorInstance :=
  ((List.range count).filter (fun i => results i)).map
    (fun i => ⟨bs + i * 2, bc + i * 2⟩)

/-- The exact message of the `RuntimeError` raised by `start_pool`. -/
def start_pool_error : String :=
  "Tor instanceları başlatılamadı (tor.exe veya data izinlerini kontrol et)"

/-- Embedding of `TorPoolManager.start_pool`.  The successfully started
instances are appended to the pre-existing list (empty on a freshly
constructed manager) and the `RuntimeError` is raised iff the list is
empty afterwards; the append happens before the check, so it is the
state effect whether or not the call raises. -/
def start_pool (count bs bc : Nat) (p : TorPool) (results : Nat → Bool) :
    Except String TorPool :=
  let p' : TorPool :=
    ⟨p.instances ++ enrolled_instances count bs bc results, p.current_index⟩
  if p'.instances = [] then .error start_pool_error else .ok p'

/-- Embedding of `TorPoolManager.stop_pool`: stops every instance and
clears the list.  `current_index` is left untouched by the source. -/
def stop_pool (p : TorPool) : TorPool := ⟨[], p.current_index⟩

/-- All ports a list of instances uses: every SOCKS port followed by
every control port. -/
def pool_ports (l : List TorInstance) : List Nat :=
  l.map (fun inst => inst.socks_port) ++ l.map (fun inst => inst.control_port)

/-! ## The pool as a transition system (for the C2 invariant)

The three operations the spec names as the only mutators of
`(instances, current_index)`. -/

/-- One mutating pool operation. -/
inductive PoolOp where
  | startOp (count bs bc : Nat) (results : Nat → Bool) : PoolOp
  | rotateOp : PoolOp
  | stopOp : PoolOp

/-- The state effect of one pool operation. -/
def pool_step (p : TorPool) : PoolOp → TorPool
  | .startOp count bs bc results =>
      ⟨p.instances ++ enrolled_instances count bs bc results, p.current_index⟩
  | .rotateOp => (switch_to_next_instance p).pool
  | .stopOp => stop_pool p

/-- Run a sequence of pool operations. -/
def pool_exec (p : TorPool) : List PoolOp → TorPool
  | [] => p
  | op :: ops => pool_exec (pool_step p op) ops

/-- The pool invariant claimed by the spec: whenever the pool is
non-empty, `0 ≤ current_index < len(instances)` (the lower bound is
automatic for `Nat`). -/
def pool_inv (p : TorPool) : Prop :=
  p.instances ≠ [] → p.current_index < p.instances.length

/-- `true` for the operations other than pool start. -/
def no_start_op : PoolOp → Bool
  | .startOp _ _ _ _ => false
  | .rotateOp => true
  | .stopOp => true

/-- The operation sequence refuting C2 as stated: start the pool with
both instances coming up, rotate (index becomes 1), stop (list cleared,
index still 1), then start again with only instance 0 coming up —
leaving a non-empty pool whose index is out of range, because
`stop_pool` never resets `current_index`.  Both starts use the
manager's fixed `count = 2` and base ports; only the `start()` outcomes
differ. -/
def c2_ops : List PoolOp :=
  [.startOp 2 9050 9051 (fun _ => true), .rotateOp, .stopOp,
   .startOp 2 9050 9051 (fun i => decide (i = 0))]

/-! ## Identity cache — `TorInstance.get_ip` (lines 189-229)

`get_ip` consults the cache first: Python evaluates
`if self._ip_cache and (now - self._ip_cache_time) < self._cache_ttl`,
so the cached value must be truthy (non-`None` **and** non-empty) and
younger than the TTL.  Otherwise it performs up to `max_retries`
external lookups through its own SOCKS port; an attempt succeeds when
the HTTP status is 200, the JSON body is an object and its `ip` field a
non-empty string, in which case `ip.strip()` is cached (with a fresh
timestamp) and returned.  Every attempt failure is swallowed; after the
last attempt the sentinel `"..."` is returned.  The embedding is a
total function — `get_ip` never raises — with the network effects of
the attempts supplied as the `attempts` list, and it additionally
returns the number of external lookups performed. -/

/-- Python `str.strip()`: drop whitespace from both ends. -/
def py_strip (s : String) : String :=
  ⟨((s.data.dropWhile Char.isWhitespace).reverse.dropWhile Char.isWhitespace).reverse⟩

/-- The identity-cache fields of one `TorInstance`: `_ip_cache`
(initially `None`), `_ip_cache_time`, `_cache_ttl` (60 by default). -/
structure IpCacheState where
  ip_cache : Option String
  ip_cache_time : Nat
  cache_ttl : Nat
deriving Repr, DecidableEq

/-- What one lookup attempt of `get_ip` observes: either the request or
JSON decoding raised, or an HTTP status plus the JSON object's `ip`
field (`none` when the body is not an object, or the field is missing
or not a string — Python then falls through without raising). -/
inductive IpAttempt where
  | exn : IpAttempt
  | resp (status : Nat) (ip_field : Option String) : IpAttempt
deriving Repr, DecidableEq

/-- The value one attempt produces: `some (ip.strip())` when the status
is 200 and the `ip` field is a non-empty string (Python checks `if ip`
*before* stripping), `none` otherwise. -/
def attempt_ip : IpAttempt → Option String
  | .exn => none
  | .resp status ip_field =>
    if status = 200 then
      match ip_field with
      | some ip => if ip = "" then none else some (py_strip ip)
      | none => none
    else none

/-- Truthiness of the Python guard
`self._ip_cache and (now - self._ip_cache_time) < self._cache_ttl`. -/
def cache_fresh (st : IpCacheState) (now : Nat) : Bool :=
  (match st.ip_cache with
   | some c => c != ""
   | none => false) && decide (now - st.ip_cache_time < st.cache_ttl)

/-- The retry loop of `get_ip`: result, new cache state, and the total
number of external lookups performed. -/
def get_ip_loop (st : IpCacheState) (now : Nat) :
    List IpAttempt → Nat → String × IpCacheState × Nat
  | [], calls => ("...", st, calls)
  | a :: rest, calls =>
    match attempt_ip a with
    | some ip => (ip, ⟨some ip, now, st.cache_ttl⟩, calls + 1)
    | none => get_ip_loop st now rest (calls + 1)

/-- Embedding of `TorInstance.get_ip`: on a fresh truthy cache return
the cached value with no lookup, otherwise run up to `max_retries`
attempts and fall back to the sentinel `"..."`. -/
def get_ip (st : IpCacheState) (now : Nat) (max_retries : Nat)
    (attempts : List IpAttempt) : String × IpCacheState × Nat :=
  if cache_fresh st now then (st.ip_cache.getD "", st, 0)
  else get_ip_loop st now (attempts.take max_retries) 0

/-! ## HTTP request handling — `HybridProxyHandler.handle_http`
(lines 94-178) and `HybridProxyHandler.handle` (lines 180-201)

`handle_http` first runs `if "GET /rotate" in first_line` — a substring
test on the whole request line — and on a hit composes and writes the
rotation-protocol response without touching the CONNECT logic.
Otherwise it splits the line on single spaces (`first_line.split(' ')`,
empty fields kept, exactly as `String.splitOn " "`), drops the
connection when there are fewer than two fields, and dispatches on the
method field.  For `CONNECT`, `host, port_str = url.split(':')` raises
(and silently drops) unless the split has exactly two fields and
`int(port_str)` parses; then the dial outcome decides between the exact
`200 Connection Established` and `502 Bad Gateway` responses.  The
rotation response (composed from pool state and identity lookups) and
the non-`CONNECT` forwarding branch (absolute-URI / `Host:` header) are
outside the claims under verification and enter as the inputs
`rotate_resp` and `other`. -/

/-- Whether `needle` occurs at the start of `hay`. -/
def starts_with : List Char → List Char → Bool
  | [], _ => true
  | _ :: _, [] => false
  | a :: as, b :: bs => (a = b) && starts_with as bs

/-- Python's substring test `needle in hay`. -/
def has_substring (needle : List Char) : List Char → Bool
  | [] => starts_with needle []
  | c :: rest => starts_with needle (c :: rest) || has_substring needle rest

/-- Python `s.split(sep)` for a one-character separator: splits on every
occurrence, keeping empty fields. -/
def py_split (sep : Char) : List Char → List (List Char)
  | [] => [[]]
  | c :: cs =>
    match py_split sep cs with
    | [] => [[c]]
    | p :: ps => if c = sep then [] :: p :: ps else (c :: p) :: ps

/-- `py_split` lifted to strings. -/
def py_split_str (sep : Char) (s : String) : List String :=
  (py_split sep s.data).map String.mk

/-- Digit run of Python `int()` after the first digit: every character
a digit, single underscores allowed only between digits. -/
def py_int_digits : List Char → Bool
  | [] => true
  | '_' :: c :: rest => c.isDigit && py_int_digits rest
  | c :: rest => c.isDigit && py_int_digits rest

/-- A valid Python `int()` digit run: non-empty, starts with a digit. -/
def py_digit_run : List Char → Bool
  | [] => false
  | c :: rest => c.isDigit && py_int_digits rest

/-- Numeric value of a digit run, underscores skipped. -/
def digits_val (cs : List Char) : Nat :=
  (cs.filter (fun c => c != '_')).foldl (fun acc c => acc * 10 + (c.toNat - 48)) 0

/-- Python `int(s)`: strip surrounding whitespace, allow one optional
sign, then a digit run. -/
def py_int (s : String) : Option Int :=
  let cs := ((s.data.dropWhile Char.isWhitespace).reverse.dropWhile
    Char.isWhitespace).reverse
  match cs with
  | '+' :: rest =>
    if py_digit_run rest then some (Int.ofNat (digits_val rest)) else none
  | '-' :: rest =>
    if py_digit_run rest then some (-(Int.ofNat (digits_val rest))) else none
  | rest =>
    if py_digit_run rest then some (Int.ofNat (digits_val rest)) else none

/-- `host, port_str = url.split(':')` followed by `port = int(port_str)`:
succeeds iff the split has exactly two fields and the second parses as a
Python integer (any failure is caught and drops the connection). -/
def parse_connect_target (url : String) : Option (String × Int) :=
  match py_split_str ':' url with
  | [h, p] =>
    match py_int p with
    | some n => some (h, n)
    | none => none
  | _ => none

/-- Observable outcome of one `handle_http` call: the byte strings
written to the client socket in order, whether the relay loop was
entered, and whether the rotation branch was taken. -/
structure HttpOutcome where
  written : List String
  relays : Bool
  rotate_branch : Bool
deriving Repr, DecidableEq

/-- Embedding of `HybridProxyHandler.handle_http`. -/
def handle_http (first_line : String) (dial_ok : Bool) (rotate_resp : String)
    (other : HttpOutcome) : HttpOutcome :=
  if has_substring "GET /rotate".data first_line.data then ⟨[rotate_resp], false, true⟩
  else
    let parts := py_split_str ' ' first_line
    if parts.length < 2 then ⟨[], false, false⟩
    else
      let method := parts.getD 0 ""
      let url := parts.getD 1 ""
      if method = "CONNECT" then
        match parse_connect_target url with
        | none => ⟨[], false, false⟩
        | some _ =>
          if dial_ok then
            ⟨["HTTP/1.1 200 Connection Established\r\n\r\n"], true, false⟩
          else
            ⟨["HTTP/1.1 502 Bad Gateway\r\n\r\n"], false, false⟩
      else other

/-- What the per-connection `handle` observes: the `MSG_PEEK` recv
(empty, a first byte, or an exception such as the 30 s timeout). -/
inductive PeekResult where
  | empty : PeekResult
  | firstByte (b : Nat) : PeekResult
  | exn : PeekResult
deriving Repr, DecidableEq

/-- Observable outcome of one `handle` call: whether the `finally`
block closed the client socket, whether `handle_http` was invoked, and
whether it ran to completion rather than raising. -/
structure HandleOutcome where
  client_closed : Bool
  ran_http : Bool
  http_completed : Bool
deriving Repr, DecidableEq

/-- Embedding of `HybridProxyHandler.handle`: peek, classify by first
byte, dispatch `HTTP` to the 64 KB recv plus `handle_http`, do nothing
for `SOCKS5`/`SOCKS4`/`UNKNOWN`; any exception (during peeking, the
recv, or HTTP handling) is swallowed by the bare `except`, and the
`finally` block closes the client socket on every path. -/
def handle (peek : PeekResult) (recv_exn http_exn : Bool) : HandleOutcome :=
  match peek with
  | .empty => ⟨true, false, false⟩
  | .exn => ⟨true, false, false⟩
  | .firstByte b =>
    if detect_protocol b = "HTTP" then
      if recv_exn then ⟨true, false, false⟩
      else if http_exn then ⟨true, true, false⟩
      else ⟨true, true, true⟩
    else ⟨true, false, false⟩

/-! ## Theorems -/

/-- C8: `detect_protocol` returns `SOCKS4` iff the byte is `0x04`,
`SOCKS5` iff it is `0x05`, `HTTP` iff it is one of the leading bytes of
`GET`/`HEAD`/`POST`/`CONNECT`/`OPTIONS` (`0x47, 0x48, 0x50, 0x43, 0x4F`),
and `UNKNOWN` for every other byte. -/
theorem detect_protocol_characterization (b : Nat) :
    (detect_protocol b = "SOCKS4" ↔ b = 0x04) ∧
    (detect_protocol b = "SOCKS5" ↔ b = 0x05) ∧
    (detect_protocol b = "HTTP" ↔
      (b = 0x47 ∨ b = 0x48 ∨ b = 0x50 ∨ b = 0x43 ∨ b = 0x4F)) ∧
    (detect_protocol b = "UNKNOWN" ↔
      ¬(b = 0x04 ∨ b = 0x05 ∨ b = 0x47 ∨ b = 0x48 ∨ b = 0x50 ∨ b = 0x43 ∨ b = 0x4F)) := by
  unfold detect_protocol
  split_ifs with h1 h2 h3 <;>
    refine ⟨?_, ?_, ?_, ?_⟩ <;> simp_all <;> tauto

/-- C4 counterexample: when the method-negotiation `recv(2)` returns the
single byte `0x05`, the dialer returns failure but does **not** close
the socket it opened (the `IndexError` from `resp[1]` skips the
`s.close()` and is swallowed by the outer `except`), contradicting the
claim that on any failure the opened socket is closed. -/
theorem connect_to_tor_c4_counterexample :
    (connect_to_tor 9050 true [5] []).returned_socket = false ∧
    (connect_to_tor 9050 true [5] []).socket_opened = true ∧
    (connect_to_tor 9050 true [5] []).socket_closed = false ∧
    (connect_to_tor 9050 true [5] []).raises = false := by
  decide

/-- C4 as amended: the dialer never raises to its caller; it returns the
live socket exactly when the pool port is nonzero, connect and sends
succeed, and both replies are at least two bytes long with a zero check
byte at index 1; and the socket it opened is closed exactly on the
failures its explicit checks detect (an empty reply, or a non-zero check
byte in a reply of length ≥ 2) — a one-byte short read or an exception
returns failure *without* closing the socket. -/
theorem connect_to_tor_amended (tor_port : Nat) (connect_ok : Bool)
    (resp1 resp2 : List Nat) :
    (connect_to_tor tor_port connect_ok resp1 resp2).raises = false ∧
    ((connect_to_tor tor_port connect_ok resp1 resp2).returned_socket = true ↔
      (tor_port ≠ 0 ∧ connect_ok = true ∧
        2 ≤ resp1.length ∧ resp1.getD 1 0 = 0 ∧
        2 ≤ resp2.length ∧ resp2.getD 1 0 = 0)) ∧
    ((connect_to_tor tor_port connect_ok resp1 resp2).socket_closed = true ↔
      (tor_port ≠ 0 ∧ connect_ok = true ∧
        (resp1.length = 0 ∨
         (2 ≤ resp1.length ∧ resp1.getD 1 0 ≠ 0) ∨
         (2 ≤ resp1.length ∧ resp1.getD 1 0 = 0 ∧
           (resp2.length = 0 ∨ (2 ≤ resp2.length ∧ resp2.getD 1 0 ≠ 0)))))) := by
  unfold connect_to_tor
  split_ifs <;> simp_all

/-- Rotation never changes the instance list, only the index. -/
theorem switch_instances_eq (p : TorPool) :
    (switch_to_next_instance p).pool.instances = p.instances := by
  unfold switch_to_next_instance
  split_ifs <;> rfl

/-- Iterated rotation never changes the instance list. -/
theorem rotate_iter_instances (p : TorPool) (k : Nat) :
    (rotate_iter p k).instances = p.instances := by
  induction k with
  | zero => rfl
  | succ k ih => simp only [rotate_iter, switch_instances_eq, ih]

/-- On a pool of size ≥ 2 whose index is in range, `k` rotations leave
the index at `(current_index + k) % len`. -/
theorem rotate_iter_index (p : TorPool) (h2 : 2 ≤ p.instances.length)
    (hidx : p.current_index < p.instances.length) (k : Nat) :
    (rotate_iter p k).current_index =
      (p.current_index + k) % p.instances.length := by
  induction k with
  | zero => simp [rotate_iter, Nat.mod_eq_of_lt hidx]
  | succ k ih =>
    have hinst := rotate_iter_instances p k
    have hne : (rotate_iter p k).instances ≠ [] := by
      rw [hinst]
      intro h
      rw [h] at h2
      simp at h2
    have hlen : (rotate_iter p k).instances.length ≠ 1 := by
      rw [hinst]; omega
    simp only [rotate_iter]
    unfold switch_to_next_instance
    rw [if_neg hne, if_neg hlen]
    simp only [hinst, ih]
    rw [Nat.mod_add_mod, Nat.add_assoc]

/-- Every residue below `n` is reached by some shift below `n`. -/
theorem add_mod_surj (n i m : Nat) (h0 : 0 < n) (hm : m < n) :
    ∃ k, k < n ∧ (i + k) % n = m := by
  have hr : i % n < n := Nat.mod_lt _ h0
  refine ⟨(m + n - i % n) % n, Nat.mod_lt _ h0, ?_⟩
  rw [Nat.add_mod_mod]
  have h1 : i + (m + n - i % n) ≡ i % n + (m + n - i % n) [MOD n] :=
    Nat.ModEq.add_right _ (Nat.mod_modEq i n).symm
  rw [Nat.ModEq] at h1
  rw [h1]
  have h2 : i % n + (m + n - i % n) = m + n := by omega
  rw [h2, Nat.add_mod_right, Nat.mod_eq_of_lt hm]

/-- Adding distinct shifts below the modulus lands on distinct residues. -/
theorem add_mod_ne_of_lt (n i j k : Nat) (hjk : j < k) (hk : k < n) :
    (i + j) % n ≠ (i + k) % n := by
  intro h
  have hmod : i + j ≡ i + k [MOD n] := h
  have hjkmod : j ≡ k [MOD n] := Nat.ModEq.add_left_cancel' i hmod
  have hdvd : n ∣ k - j := (Nat.modEq_iff_dvd' (le_of_lt hjk)).mp hjkmod
  have := Nat.le_of_dvd (by omega) hdvd
  omega

/-- C1: on a pool with at least two instances (index in range), a
rotation synchronously sets `current_index` to
`(current_index + 1) % len` and immediately returns the instance at the
new index; the `(k+1)`-st of a run of rotations returns the instance at
index `(current_index + 1 + k) % len`; for `j ≠ k` below the pool size
these indices differ, and every index below the pool size is reached by
some rotation among the first `len` — so `len` consecutive rotations
visit every instance exactly once, in circular order starting just
after the pre-rotation active index. -/
theorem rotation_cycle (p : TorPool) (h2 : 2 ≤ p.instances.length)
    (hidx : p.current_index < p.instances.length) :
    ((switch_to_next_instance p).pool.current_index =
      (p.current_index + 1) % p.instances.length) ∧
    ((switch_to_next_instance p).returned =
      some (p.instances.getD ((p.current_index + 1) % p.instances.length) default)) ∧
    (∀ k, rotation_return p k =
      some (p.instances.getD
        ((p.current_index + 1 + k) % p.instances.length) default)) ∧
    (∀ j k, j < p.instances.length → k < p.instances.length → j ≠ k →
      (p.current_index + 1 + j) % p.instances.length ≠
        (p.current_index + 1 + k) % p.instances.length) ∧
    (∀ m, m < p.instances.length → ∃ k, k < p.instances.length ∧
      (p.current_index + 1 + k) % p.instances.length = m) := by
  have hne : p.instances ≠ [] := by
    intro h
    rw [h] at h2
    simp at h2
  have hlen : p.instances.length ≠ 1 := by omega
  refine ⟨?_, ?_, ?_, ?_, ?_⟩
  · unfold switch_to_next_instance
    rw [if_neg hne, if_neg hlen]
  · unfold switch_to_next_instance
    rw [if_neg hne, if_neg hlen]
  · intro k
    have hinst := rotate_iter_instances p k
    have hqne : (rotate_iter p k).instances ≠ [] := by rw [hinst]; exact hne
    have hqlen : (rotate_iter p k).instances.length ≠ 1 := by rw [hinst]; omega
    unfold rotation_return
    unfold switch_to_next_instance
    rw [if_neg hqne, if_neg hqlen]
    simp only [hinst, rotate_iter_index p h2 hidx k, Nat.mod_add_mod]
    have hadd : p.current_index + 1 + k = p.current_index + k + 1 := by omega
    rw [hadd]
  · intro j k hj hk hjk
    rcases Nat.lt_or_ge j k with h | h
    · exact add_mod_ne_of_lt _ _ _ _ h hk
    · have hkj : k < j := by omega
      exact (add_mod_ne_of_lt _ _ _ _ hkj hj).symm
  · intro m hm
    exact add_mod_surj p.instances.length (p.current_index + 1) m (by omega) hm

/-- Witness for C1 at a concrete two-instance pool starting at index 0:
the first rotation moves the index to 1 and returns the second
instance, the second rotation returns the first instance. -/
theorem rotation_cycle_witness :
    (switch_to_next_instance pool_two).pool.current_index = (0 + 1) % 2 ∧
    rotation_return pool_two 0 = some inst_b ∧
    rotation_return pool_two 1 = some inst_a := by
  have h := rotation_cycle pool_two (by decide) (by decide)
  refine ⟨h.1, ?_, ?_⟩
  · simpa [pool_two, inst_a, inst_b] using h.2.2.1 0
  · simpa [pool_two, inst_a, inst_b] using h.2.2.1 1

/-- C9: on a pool of exactly one instance, every rotation call returns
the sole instance `instances[0]` immediately, leaves the whole pool
state (in particular `current_index`) unchanged, and merely spawns the
identity-renewal work (`renew_single_ip`) as a detached daemon thread,
so the caller is never blocked on it; iterating rotations never changes
the pool state. -/
theorem rotation_single (p : TorPool) (h1 : p.instances.length = 1) :
    (switch_to_next_instance p).pool = p ∧
    (switch_to_next_instance p).returned = some (p.instances.getD 0 default) ∧
    (switch_to_next_instance p).task = .renewSingle ∧
    (∀ k, rotate_iter p k = p) := by
  have hne : p.instances ≠ [] := by
    intro h
    rw [h] at h1
    simp at h1
  have hswitch : switch_to_next_instance p =
      ⟨p, some (p.instances.getD 0 default), .renewSingle⟩ := by
    unfold switch_to_next_instance
    rw [if_neg hne, if_pos h1]
  refine ⟨by rw [hswitch], by rw [hswitch], by rw [hswitch], ?_⟩
  intro k
  induction k with
  | zero => rfl
  | succ k ih => simp only [rotate_iter, ih, hswitch]

/-- Witness for C9 at a concrete one-instance pool: every rotation
returns the sole instance and the pool never changes. -/
theorem rotation_single_witness :
    (switch_to_next_instance pool_one).pool = pool_one ∧
    (switch_to_next_instance pool_one).returned = some inst_a ∧
    (switch_to_next_instance pool_one).task = .renewSingle ∧
    rotate_iter pool_one 5 = pool_one := by
  have h := rotation_single pool_one (by decide)
  exact ⟨h.1, by simpa [pool_one, inst_a] using h.2.1, h.2.2.1, h.2.2.2 5⟩

/-- Rotation preserves the pool invariant. -/
theorem pool_inv_rotate (p : TorPool) (h : pool_inv p) :
    pool_inv (switch_to_next_instance p).pool := by
  unfold pool_inv at *
  unfold switch_to_next_instance
  split_ifs with h0 h1
  · exact h
  · exact h
  · intro _
    exact Nat.mod_lt _ (List.length_pos.mpr h0)

/-- Start-free operation sequences preserve the pool invariant. -/
theorem pool_inv_exec_no_start (ops : List PoolOp) :
    ∀ p : TorPool, pool_inv p → (∀ op ∈ ops, no_start_op op = true) →
      pool_inv (pool_exec p ops) := by
  induction ops with
  | nil =>
    intro p h _
    exact h
  | cons op ops ih =>
    intro p h hops
    have hop : no_start_op op = true := hops op (by simp)
    have hrest : ∀ op' ∈ ops, no_start_op op' = true := by
      intro op' h'
      exact hops op' (by simp [h'])
    cases op with
    | startOp c bs bc r => simp [no_start_op] at hop
    | rotateOp => exact ih _ (pool_inv_rotate p h) hrest
    | stopOp => exact ih _ (fun hne => absurd rfl hne) hrest

/-- C2 counterexample: from the freshly constructed pool, the sequence
start (both instances up), rotate, stop, start (only instance 0 up) —
each step one of the three named mutators — ends in a non-empty pool
whose `current_index` (still 1 from before the stop, because
`stop_pool` clears `instances` but never resets `current_index`) is out
of range, so the invariant is not preserved by every sequence of the
three operations. -/
theorem pool_invariant_c2_counterexample :
    pool_exec ⟨[], 0⟩ c2_ops = ⟨[inst_a], 1⟩ ∧ ¬ pool_inv ⟨[inst_a], 1⟩ := by
  refine ⟨rfl, ?_⟩
  intro h
  have h1 := h (by simp)
  simp [inst_a] at h1

/-- C2 as amended: the invariant `current_index < len(instances)` (for
a non-empty pool) holds after every sequence made of one pool start from
the freshly constructed state followed by any number of rotations and
pool stops.  It is not preserved once a second pool start may follow a
rotation and a stop, since `stop_pool` does not reset
`current_index`. -/
theorem pool_invariant_amended (count bs bc : Nat) (results : Nat → Bool)
    (ops : List PoolOp) (hops : ∀ op ∈ ops, no_start_op op = true) :
    pool_inv (pool_exec ⟨[], 0⟩ (.startOp count bs bc results :: ops)) := by
  apply pool_inv_exec_no_start ops _ _ hops
  intro hne
  exact List.length_pos.mpr hne

/-- Witness for C2 (amended) at a concrete sequence: after starting two
instances and rotating once, the index is in range. -/
theorem pool_invariant_amended_witness :
    (pool_exec ⟨[], 0⟩ [.startOp 2 9050 9051 (fun _ => true), .rotateOp]).current_index <
      (pool_exec ⟨[], 0⟩ [.startOp 2 9050 9051 (fun _ => true), .rotateOp]).instances.length := by
  have h := pool_invariant_amended 2 9050 9051 (fun _ => true) [.rotateOp] (by
    intro op hmem
    simp only [List.mem_singleton] at hmem
    subst hmem
    rfl)
  exact h (by decide)

/-- Zero instances are enrolled iff every `start()` outcome below
`count` is failure. -/
theorem enrolled_instances_eq_nil (count bs bc : Nat) (results : Nat → Bool) :
    enrolled_instances count bs bc results = [] ↔ ∀ i < count, results i = false := by
  unfold enrolled_instances
  rw [List.map_eq_nil_iff, List.filter_eq_nil_iff]
  constructor
  · intro h i hi
    simpa using h i (List.mem_range.mpr hi)
  · intro h i hi
    simpa using h i (List.mem_range.mp hi)

/-- C3: from the freshly constructed (empty) pool, `start_pool` enrolls
into the live pool exactly the instances whose `start()` returned
success, and raises its `RuntimeError` — its only way to fail — iff
zero instances were enrolled, i.e. iff no `i < count` succeeded. -/
theorem start_pool_enrollment (count bs bc : Nat) (results : Nat → Bool) :
    (start_pool count bs bc ⟨[], 0⟩ results = .error start_pool_error ↔
      ∀ i < count, results i = false) ∧
    (∀ p', start_pool count bs bc ⟨[], 0⟩ results = .ok p' →
      p'.instances = enrolled_instances count bs bc results ∧ p'.instances ≠ []) := by
  constructor
  · rw [← enrolled_instances_eq_nil count bs bc results]
    unfold start_pool
    simp only [List.nil_append]
    split_ifs with h
    · simp [h]
    · simp [h]
  · intro p' hp'
    unfold start_pool at hp'
    simp only [List.nil_append] at hp'
    split_ifs at hp' with h
    injection hp' with h2
    subst h2
    exact ⟨rfl, h⟩

/-- Witness for C3: with one instance and a succeeding `start()`,
`start_pool` returns the singleton pool; with zero instances it raises
the `RuntimeError`. -/
theorem start_pool_enrollment_witness :
    start_pool 0 9050 9051 ⟨[], 0⟩ (fun _ => true) = .error start_pool_error ∧
    ([inst_a] = enrolled_instances 1 9050 9051 (fun _ => true) ∧
      ([inst_a] : List TorInstance) ≠ []) := by
  refine ⟨(start_pool_enrollment 0 9050 9051 (fun _ => true)).1.mpr ?_, ?_⟩
  · intro i hi
    omega
  · have h := (start_pool_enrollment 1 9050 9051 (fun _ => true)).2 ⟨[inst_a], 0⟩ rfl
    exact h

/-- The SOCKS ports of the launched pool, in order. -/
theorem launch_socks_ports (count bs bc : Nat) :
    (launch_instances count bs bc).map (fun inst => inst.socks_port) =
      (List.range count).map (fun i => bs + i * 2) := by
  unfold launch_instances
  rw [List.map_map]
  rfl

/-- The control ports of the launched pool, in order. -/
theorem launch_control_ports (count bs bc : Nat) :
    (launch_instances count bs bc).map (fun inst => inst.control_port) =
      (List.range count).map (fun i => bc + i * 2) := by
  unfold launch_instances
  rw [List.map_map]
  rfl

/-- An even-step arithmetic progression over `range` has pairwise
distinct entries. -/
theorem range_step_two_pairwise (count base : Nat) :
    ((List.range count).map (fun i => base + i * 2)).Pairwise (· ≠ ·) := by
  refine List.Pairwise.map _ ?_ (List.pairwise_lt_range count)
  intro a b hab
  omega

/-- C6 counterexample: with base ports `(0, 2)` and two instances,
instance 0's control port `2` equals instance 1's SOCKS port `2`, so the
ports across the pool are **not** pairwise distinct — the claim's
quantification over every base-port pair fails (the code adds `2·i` to
each base with no cross-family check). -/
theorem launch_ports_c6_counterexample :
    (launch_instances 2 0 2).map (fun inst => inst.socks_port) = [0, 2] ∧
    (launch_instances 2 0 2).map (fun inst => inst.control_port) = [2, 4] ∧
    ¬ (pool_ports (launch_instances 2 0 2)).Pairwise (· ≠ ·) := by
  refine ⟨rfl, rfl, ?_⟩
  decide

/-- C6 as amended: instance `i` gets `socks_port = Bs + 2·i` and
`control_port = Bc + 2·i`; the SOCKS ports are pairwise distinct and
the control ports are pairwise distinct for every base pair; and when
the two bases differ in parity — as the defaults `(9050, 9051)` used by
the application do — all ports across the pool are pairwise
distinct. -/
theorem launch_ports_amended (count bs bc : Nat) :
    (∀ i, i < count →
      (launch_instances count bs bc).getD i default =
        ⟨bs + i * 2, bc + i * 2⟩) ∧
    ((launch_instances count bs bc).map (fun inst => inst.socks_port)).Pairwise (· ≠ ·) ∧
    ((launch_instances count bs bc).map (fun inst => inst.control_port)).Pairwise (· ≠ ·) ∧
    (bs % 2 ≠ bc % 2 →
      (pool_ports (launch_instances count bs bc)).Pairwise (· ≠ ·)) := by
  refine ⟨?_, ?_, ?_, ?_⟩
  · intro i hi
    have hlen : i < (launch_instances count bs bc).length := by
      simpa [launch_instances] using hi
    rw [List.getD_eq_getElem _ _ hlen]
    unfold launch_instances
    simp
  · rw [launch_socks_ports]
    exact range_step_two_pairwise count bs
  · rw [launch_control_ports]
    exact range_step_two_pairwise count bc
  · intro hpar
    unfold pool_ports
    rw [launch_socks_ports, launch_control_ports, List.pairwise_append]
    refine ⟨range_step_two_pairwise count bs, range_step_two_pairwise count bc, ?_⟩
    intro x hx y hy
    rcases List.mem_map.mp hx with ⟨i, _, rfl⟩
    rcases List.mem_map.mp hy with ⟨j, _, rfl⟩
    omega

/-- Witness for C6 (amended) at the application's default base ports
`(9050, 9051)` and pool size 2: instance 1 gets ports `(9052, 9053)`
and all four ports are pairwise distinct. -/
theorem launch_ports_amended_witness :
    (launch_instances 2 9050 9051).getD 1 default = ⟨9052, 9053⟩ ∧
    9050 % 2 ≠ 9051 % 2 ∧
    (pool_ports (launch_instances 2 9050 9051)).Pairwise (· ≠ ·) := by
  have h := launch_ports_amended 2 9050 9051
  exact ⟨by simpa using h.1 1 (by omega), by decide, h.2.2.2 (by decide)⟩

/-- When every attempt fails, the retry loop returns the sentinel and
leaves the state untouched, having performed one lookup per attempt. -/
theorem get_ip_loop_all_fail (st : IpCacheState) (now : Nat) :
    ∀ (l : List IpAttempt) (calls : Nat), (∀ a ∈ l, attempt_ip a = none) →
      get_ip_loop st now l calls = ("...", st, calls + l.length) := by
  intro l
  induction l with
  | nil =>
    intro calls _
    simp [get_ip_loop]
  | cons a rest ih =>
    intro calls h
    have ha : attempt_ip a = none := h a (by simp)
    have hrest : ∀ a' ∈ rest, attempt_ip a' = none := by
      intro a' h'
      exact h a' (by simp [h'])
    simp only [get_ip_loop, ha]
    rw [ih (calls + 1) hrest]
    have harith : calls + 1 + rest.length = calls + (a :: rest).length := by
      simp [List.length_cons]
      omega
    rw [harith]

/-- C7 counterexample: a lookup whose JSON `ip` field is the non-empty
string `" "` passes the `if ip` truthiness check, is stripped to `""`,
cached and returned; on the next call — cache age 0, well below the
TTL 60 — the cached `""` is falsy, so `get_ip` performs another
external lookup and returns the sentinel instead of the cached value:
two calls within the TTL with no intervening renewal are not
byte-identical and the second is not lookup-free. -/
theorem get_ip_c7_counterexample :
    (get_ip ⟨none, 0, 60⟩ 0 1 [.resp 200 (some " ")]).1 = "" ∧
    (get_ip ⟨none, 0, 60⟩ 0 1 [.resp 200 (some " ")]).2.1 = ⟨some "", 0, 60⟩ ∧
    (0 : Nat) - (0 : Nat) < 60 ∧
    (get_ip ⟨some "", 0, 60⟩ 0 1 [.exn]).1 = "..." ∧
    (get_ip ⟨some "", 0, 60⟩ 0 1 [.exn]).2.2 = 1 := by
  refine ⟨?_, ?_, by omega, ?_, ?_⟩ <;> rfl

/-- C7 as amended: when the cached value is a **non-empty** string
younger than the TTL, `get_ip` returns it unchanged with the state
untouched and performs no external lookup — so two such calls return
byte-identical results; when the cache guard fails and every attempt
fails, it returns the sentinel `"..."` with the cache untouched.  The
embedding is a total function: `get_ip` never raises. -/
theorem get_ip_amended (st : IpCacheState) (now max_retries : Nat)
    (attempts : List IpAttempt) :
    (∀ c, st.ip_cache = some c → c ≠ "" → now - st.ip_cache_time < st.cache_ttl →
      get_ip st now max_retries attempts = (c, st, 0)) ∧
    (cache_fresh st now = false → (∀ a ∈ attempts, attempt_ip a = none) →
      (get_ip st now max_retries attempts).1 = "..." ∧
      (get_ip st now max_retries attempts).2.1 = st) := by
  constructor
  · intro c hc hne hage
    have hfresh : cache_fresh st now = true := by
      simp [cache_fresh, hc, hne, hage]
    unfold get_ip
    rw [if_pos hfresh, hc]
    rfl
  · intro hfresh hfail
    have hfail' : ∀ a ∈ attempts.take max_retries, attempt_ip a = none := by
      intro a ha
      exact hfail a (List.mem_of_mem_take ha)
    unfold get_ip
    rw [if_neg (by simp [hfresh])]
    rw [get_ip_loop_all_fail st now (attempts.take max_retries) 0 hfail']
    exact ⟨rfl, rfl⟩

/-- Witness for C7 (amended): a non-empty cached value aged 30 s of a
60 s TTL is returned unchanged with zero lookups; a cold cache with two
failing attempts yields the sentinel. -/
theorem get_ip_amended_witness :
    get_ip ⟨some "1.2.3.4", 0, 60⟩ 30 1 [.exn] =
      ("1.2.3.4", ⟨some "1.2.3.4", 0, 60⟩, 0) ∧
    (get_ip ⟨none, 0, 60⟩ 30 2 [.exn, .exn]).1 = "..." := by
  refine ⟨(get_ip_amended ⟨some "1.2.3.4", 0, 60⟩ 30 1 [.exn]).1 "1.2.3.4" rfl
    (by decide) (by decide), ?_⟩
  refine ((get_ip_amended ⟨none, 0, 60⟩ 30 2 [.exn, .exn]).2 rfl ?_).1
  intro a ha
  simp only [List.mem_cons, List.not_mem_nil, or_false] at ha
  rcases ha with h | h <;> subst h <;> rfl

/-- C5 counterexample: the request line `CONNECT GET /rotate HTTP/1.1`
has method `CONNECT` and a target (`GET`) that does not parse as
`host:port`, so the claim requires a silent drop with no bytes written;
but the substring check `"GET /rotate" in first_line` fires first and
the handler writes the rotation-protocol response to the client. -/
theorem handle_http_c5_counterexample :
    (handle_http "CONNECT GET /rotate HTTP/1.1" false
        "HTTP/1.1 500 Internal Server Error\r\n\r\nNo active instance"
        ⟨[], false, false⟩).written =
      ["HTTP/1.1 500 Internal Server Error\r\n\r\nNo active instance"] ∧
    (py_split_str ' ' "CONNECT GET /rotate HTTP/1.1").getD 0 "" = "CONNECT" ∧
    parse_connect_target ((py_split_str ' ' "CONNECT GET /rotate HTTP/1.1").getD 1 "") =
      none := by
  refine ⟨?_, ?_, ?_⟩ <;> rfl

/-- C5 as amended: for every request line that does **not** contain the
substring `GET /rotate` and splits on spaces into at least two fields
with method field `CONNECT`: a target that does not parse as
`host:port` drops the connection with no bytes written; on a parsing
target, the handler writes exactly
`HTTP/1.1 200 Connection Established\r\n\r\n` and relays when the
backend dial succeeds, and writes exactly
`HTTP/1.1 502 Bad Gateway\r\n\r\n` without relaying when it fails. -/
theorem handle_http_connect_amended (first_line : String) (dial_ok : Bool)
    (rotate_resp : String) (other : HttpOutcome)
    (hrot : has_substring "GET /rotate".data first_line.data = false)
    (hlen : ¬ (py_split_str ' ' first_line).length < 2)
    (hm : (py_split_str ' ' first_line).getD 0 "" = "CONNECT") :
    (parse_connect_target ((py_split_str ' ' first_line).getD 1 "") = none →
      handle_http first_line dial_ok rotate_resp other = ⟨[], false, false⟩) ∧
    (∀ t, parse_connect_target ((py_split_str ' ' first_line).getD 1 "") = some t →
      handle_http first_line dial_ok rotate_resp other =
        (if dial_ok then
          ⟨["HTTP/1.1 200 Connection Established\r\n\r\n"], true, false⟩
         else ⟨["HTTP/1.1 502 Bad Gateway\r\n\r\n"], false, false⟩)) := by
  constructor
  · intro hp
    simp only [List.getD_eq_getElem?_getD] at hm hp
    simp [handle_http, hrot, hlen, hm, hp]
  · intro t hp
    simp only [List.getD_eq_getElem?_getD] at hm hp
    simp [handle_http, hrot, hlen, hm, hp]

/-- Witness for C5 (amended) at the request line
`CONNECT example.com:443 HTTP/1.1`: dial success writes exactly the 200
response and relays; dial failure writes exactly the 502 response. -/
theorem handle_http_connect_amended_witness :
    handle_http "CONNECT example.com:443 HTTP/1.1" true "" ⟨[], false, false⟩ =
      ⟨["HTTP/1.1 200 Connection Established\r\n\r\n"], true, false⟩ ∧
    handle_http "CONNECT example.com:443 HTTP/1.1" false "" ⟨[], false, false⟩ =
      ⟨["HTTP/1.1 502 Bad Gateway\r\n\r\n"], false, false⟩ := by
  constructor
  · exact (handle_http_connect_amended "CONNECT example.com:443 HTTP/1.1" true ""
      ⟨[], false, false⟩ rfl (by decide) rfl).2 ("example.com", 443) rfl
  · exact (handle_http_connect_amended "CONNECT example.com:443 HTTP/1.1" false ""
      ⟨[], false, false⟩ rfl (by decide) rfl).2 ("example.com", 443) rfl

/-- C10: every accepted connection ends with the client socket closed —
the empty-peek path, the SOCKS and UNKNOWN classifications, the HTTP
path, and every exception path (peek, recv, or HTTP handling raising)
all reach the `finally` block that closes the socket. -/
theorem handle_always_closes (peek : PeekResult) (recv_exn http_exn : Bool) :
    (handle peek recv_exn http_exn).client_closed = true := by
  cases peek with
  | empty => rfl
  | exn => rfl
  | firstByte b =>
    show (if detect_protocol b = "HTTP" then
        if recv_exn then (⟨true, false, false⟩ : HandleOutcome)
        else if http_exn then ⟨true, true, false⟩
        else ⟨true, true, true⟩
      else ⟨true, false, false⟩).client_closed = true
    split_ifs <;> rfl

end MkProxy
